import Mathlib

/-!
Verification of the short-samachaar news ingestion pipeline
(`server/scripts/scheduler.py`, `server/models/article.py`,
`server/config/basic_config.py`) against its specification.

The Python code is shallowly embedded below: pure pieces become Lean
functions, the Elasticsearch index becomes an association list keyed by
document id, datetimes become integer timestamps, and exception-raising
steps become `Except`/`Option` values.  External library behaviour
(`requests`, Selenium, pydantic URL validation, `datetime.fromisoformat`)
is modelled at the granularity the source uses it: validation outcomes and
timing bounds, with unknown parsers passed in as parameters where the
claims quantify over them.
-/

namespace ShortSamachaar

/-- An article stub as delivered in the feed's `results` array
(`title`, `link`, `description`, `pubDate` ISO string, `category`).
`description` is optional: `main` reads it with `item.get("description", "")`. -/
structure Stub where
  title : String
  link : String
  description : Option String
  pubDate : String
  category : List String
  deriving Repr, DecidableEq

/-- `models/article.py`: the pydantic `Article` model.  `publish_date`
(a `datetime`) is modelled as an integer timestamp; `link` (pydantic
`HttpUrl`) as the raw string, with its validation modelled by
`isValidHttpUrl` below; `sentiment : Optional[str] = None` keeps its
`none` default (the spec's enumeration names this default "unknown"). -/
structure Article where
  title : String
  description : String
  content : String
  publish_date : Int
  category : List String
  link : String
  sentiment : Option String := none
  deriving Repr, DecidableEq

/-- Python `str.replace` on character lists, with explicit fuel to keep
the recursion structural: scan left to right, replace each non-overlapping
occurrence of `pat`, continue after the replaced occurrence.  The fuel is
always instantiated with the list's length, which bounds the number of
scan steps since every step consumes at least one character. -/
def replaceChars (pat rep : List Char) : Nat → List Char → List Char
  | _, [] => []
  | 0, l => l
  | fuel + 1, c :: rest =>
    if pat.isPrefixOf (c :: rest) then
      rep ++ replaceChars pat rep fuel (List.drop (pat.length - 1) rest)
    else
      c :: replaceChars pat rep fuel rest

/-- Python `str.replace pat rep` (for the nonempty patterns the source
uses): every non-overlapping occurrence of `pat`, scanned left to right,
is replaced by `rep`. -/
def pyReplace (s pat rep : String) : String :=
  ⟨replaceChars pat.data rep.data s.data.length s.data⟩

/-- Python `str.startswith`. -/
def pyStartsWith (s pre : String) : Bool :=
  pre.data.isPrefixOf s.data

/-- The string with its first `n` characters dropped. -/
def strDrop (s : String) (n : Nat) : String :=
  ⟨s.data.drop n⟩

/-- Model of pydantic v1 `HttpUrl` validation at the granularity the
claims use it: the string must carry an `http://` or `https://` scheme
followed by a nonempty host part that does not immediately start with
another `/`.  Strings without such a scheme (the claims' "syntactically
invalid" links) are rejected, as pydantic rejects them. -/
def isValidHttpUrl (s : String) : Bool :=
  if pyStartsWith s "https://" then
    let rest := strDrop s 8
    decide (rest ≠ "") && !(pyStartsWith rest "/")
  else if pyStartsWith s "http://" then
    let rest := strDrop s 7
    decide (rest ≠ "") && !(pyStartsWith rest "/")
  else
    false

/-- The behaviour of the external world during one run, as the source
observes it: `resolve` is `extract_content_with_selenium` (which catches
every exception internally and returns the extracted text or `None`), and
`parseDate` is `datetime.fromisoformat` (returning `none` where the
library would raise `ValueError`). -/
structure Env where
  resolve : String → Option String
  parseDate : String → Option Int

/-- The body of the per-item `try` block in `main`
(`scheduler.py` lines 197-221): resolve content via
`extract_content_with_selenium`; on a falsy result hit `continue`;
otherwise build the `Article` — `datetime.fromisoformat(item["pubDate"])`
is evaluated first and raises on an unparseable string, then pydantic
validates `link` as `HttpUrl` — and print it.  `.error` models a raised
exception, `.ok none` the `continue` on missing content, `.ok (some a)`
the successfully built (and printed) article.  The enrichment and
indexing calls that would follow are commented out in the source, so the
body ends here. -/
def itemBody (env : Env) (item : Stub) : Except String (Option Article) :=
  match env.resolve item.link with
  | none => .ok none
  | some content =>
    if content = "" then .ok none
    else
      match env.parseDate item.pubDate with
      | none => .error "Invalid isoformat string"
      | some d =>
        if isValidHttpUrl item.link then
          .ok (some { title := item.title
                      description := item.description.getD ""
                      content := content
                      publish_date := d
                      category := item.category
                      link := item.link })
        else .error "validation error for Article: link is not a valid HttpUrl"

/-- Observable outcome of one loop iteration of `main`. -/
inductive StubOutcome
  | skipped
  | printed (a : Article)
  | errorCaught (msg : String)
  deriving Repr, DecidableEq

/-- One iteration of the per-item loop in `main`: the `try`/`except
Exception` wrapper around `itemBody` — a raised exception is logged and
turned into `continue`, so every iteration yields an outcome. -/
def processItem (env : Env) (item : Stub) : StubOutcome :=
  match itemBody env item with
  | .error e => .errorCaught e
  | .ok none => .skipped
  | .ok (some a) => .printed a

/-- What a whole run of `main` leaves behind: whether the Selenium driver
was acquired, the outcome of each loop iteration, how many times
`driver.quit()` ran, and the writes issued to the Elasticsearch index.
`indexWrites` records calls to `index_article_in_elasticsearch`; in the
source that call (and the `cleanup_old_articles` call) is commented out,
so a faithful run never writes. -/
structure RunResult where
  driverAcquired : Bool
  outcomes : List StubOutcome
  driverQuitCount : Nat
  indexWrites : List (String × Article)
  deriving Repr, DecidableEq

/-- `main` (`scheduler.py` lines 177-238) given the already-fetched list
of news items and whether `initialize_selenium_driver` succeeds:
empty fetch → return before driver initialization; driver failure →
return with no processing; otherwise loop over every item inside
`try ... finally: driver.quit()`, so the quit runs exactly once.
The indexing call is commented out in the source, hence
`indexWrites := []` on every path. -/
def mainRun (env : Env) (news_items : List Stub) (driverOk : Bool) : RunResult :=
  if news_items.isEmpty then
    { driverAcquired := false, outcomes := [], driverQuitCount := 0, indexWrites := [] }
  else if !driverOk then
    { driverAcquired := false, outcomes := [], driverQuitCount := 0, indexWrites := [] }
  else
    { driverAcquired := true
      outcomes := news_items.map (processItem env)
      driverQuitCount := 1
      indexWrites := [] }

/-- The feed's HTTP response as `fetch_news_metadata_from_api` observes
it: either some exception inside the `try` (network error,
`raise_for_status` on non-2xx, JSON decode failure), or a decoded JSON
body whose `results` key is present (a list of stubs) or absent. -/
inductive FeedResponse
  | failure
  | jsonBody (results : Option (List Stub))

/-- `fetch_news_metadata_from_api` (`scheduler.py` lines 31-50): on any
exception return `[]`; on a body without `results` return `[]`;
otherwise return the `results` list. -/
def fetch_news_metadata_from_api : FeedResponse → List Stub
  | .failure => []
  | .jsonBody none => []
  | .jsonBody (some rs) => rs

/-- The full run: fetch, then `main`'s processing of the fetched items. -/
def runPipeline (env : Env) (resp : FeedResponse) (driverOk : Bool) : RunResult :=
  mainRun env (fetch_news_metadata_from_api resp) driverOk

/-! ## The Elasticsearch index model -/

/-- `index_article_in_elasticsearch`'s document id (`scheduler.py`
lines 140-145): the article's link with every occurrence of `https://`
and `http://` removed (Python `str.replace` replaces all occurrences,
not only a prefix) and every `/` replaced by `_`. -/
def doc_id (link : String) : String :=
  pyReplace (pyReplace (pyReplace link "https://" "") "http://" "") "/" "_"

/-- `es_client.index(index, id=..., document=...)`: insert-or-replace
keyed by the document id. -/
def esIndex (store : List (String × Article)) (id : String) (doc : Article) :
    List (String × Article) :=
  if store.any (fun p => p.1 = id) then
    store.map (fun p => if p.1 = id then (id, doc) else p)
  else
    store ++ [(id, doc)]

/-- `index_article_in_elasticsearch` (`scheduler.py` lines 133-156):
compute `doc_id` from the article's link and upsert the document. -/
def index_article_in_elasticsearch (store : List (String × Article))
    (article : Article) : List (String × Article) :=
  esIndex store (doc_id article.link) article

/-- `basic_config.py`: `ARTICLE_RETENTION_DAYS: int = 7`. -/
def ARTICLE_RETENTION_DAYS : Int := 7

/-- `cleanup_old_articles` (`scheduler.py` lines 159-174).  The cutoff
variable is named `seven_days_ago` but is assigned
`datetime.now().isoformat()` with no subtraction, so the
`delete_by_query` range `{"lt": cutoff}` deletes every document whose
`publish_date` is strictly before `now` itself.  `now` is passed in
as the current timestamp. -/
def cleanup_old_articles (now : Int) (store : List (String × Article)) :
    List (String × Article) :=
  let seven_days_ago := now
  store.filter (fun p => !(p.2.publish_date < seven_days_ago))

/-- The exception path of `process_news_with_langchain` (`scheduler.py`
lines 127-129): on any failure the function returns `article_data`
unchanged, so a failing enrichment never alters the base record. -/
def process_news_with_langchain_failure (article_data : Article) : Article :=
  article_data

/-! ## Timing model of the run's blocking operations -/

/-- The `WebDriverWait(driver, 10)` timeout in
`extract_content_with_selenium` (design value: 10 time units). -/
def webDriverWaitTimeout : Nat := 10

/-- The `time.sleep(2)` settle delay in `extract_content_with_selenium`
(design value: 2 time units). -/
def settleDelay : Nat := 2

/-- How long `extract_content_with_selenium` blocks, as a function of
when the content-bearing `article` element appears (`none` = never):
`WebDriverWait(driver, 10)` returns as soon as the element appears
within the timeout and is followed by the fixed `time.sleep(2)`; if the
element does not appear within the timeout, the wait raises
`TimeoutException` after 10 units, which the `except` catches without
reaching the sleep. -/
def resolverBlockTime (elementAppearsAt : Option Nat) : Nat :=
  match elementAppearsAt with
  | some t => if t ≤ webDriverWaitTimeout then t + settleDelay else webDriverWaitTimeout
  | none => webDriverWaitTimeout

/-- How long the `requests.get(settings.NEWS_API_URL, headers=...)` call
in `fetch_news_metadata_from_api` blocks, as a function of how long the
server takes to respond: the call passes no `timeout` argument and the
`requests` library applies no default timeout, so the call blocks for as
long as the server takes. -/
def metadataBlockTime (serverResponseTime : Nat) : Nat :=
  serverResponseTime

/-! ## Concrete inputs used by witnesses and evaluations -/

/-- A benign environment: every URL resolves to the text
`Extracted text`, every pubDate parses. -/
def envOk : Env :=
  { resolve := fun _ => some "Extracted text"
    parseDate := fun _ => some 20240101 }

/-- An environment whose resolver fails exactly on the second stub's
link (the spec's "resolver throwing on item 2 of 3" scenario). -/
def envFailB : Env :=
  { resolve := fun url => if url = "https://example.com/b" then none else some "Extracted text"
    parseDate := fun _ => some 20240101 }

/-- Stub A: well-formed in every respect. -/
def stubA : Stub :=
  { title := "A", link := "https://example.com/a", description := some "dA"
    pubDate := "2024-01-01T00:00:00", category := ["top"] }

/-- Stub B: well-formed, but `envFailB`'s resolver fails on its link. -/
def stubB : Stub :=
  { title := "B", link := "https://example.com/b", description := none
    pubDate := "2024-01-01T00:00:00", category := ["top"] }

/-- Stub C: well-formed in every respect. -/
def stubC : Stub :=
  { title := "C", link := "https://example.com/c", description := none
    pubDate := "2024-01-01T00:00:00", category := ["top"] }

/-- A stub whose link has no URL scheme at all. -/
def stubBadLink : Stub :=
  { title := "Bad", link := "not a url", description := none
    pubDate := "2024-01-01T00:00:00", category := [] }

/-! ## Claims -/

/-- **C7.** For every feed response, `fetch_news_metadata_from_api`
returns a finite list of stubs and never raises: any exception inside the
`try` (network failure, non-2xx `raise_for_status`, JSON decode error)
yields `[]`, a JSON body lacking a `results` array yields `[]`, and a
body carrying `results` yields exactly that list. -/
theorem fetch_degrades_to_empty :
    fetch_news_metadata_from_api .failure = [] ∧
    fetch_news_metadata_from_api (.jsonBody none) = [] ∧
    ∀ rs : List Stub, fetch_news_metadata_from_api (.jsonBody (some rs)) = rs := by
  refine ⟨rfl, rfl, fun rs => rfl⟩

/-- **C10.** If the metadata fetch yields an empty list of stubs, the run
returns immediately: no rendering session is acquired, no stub is
processed, and nothing is written to the index. -/
theorem empty_fetch_returns_immediately (env : Env) (resp : FeedResponse)
    (driverOk : Bool) (h : fetch_news_metadata_from_api resp = []) :
    runPipeline env resp driverOk =
      { driverAcquired := false, outcomes := [], driverQuitCount := 0, indexWrites := [] } := by
  simp [runPipeline, mainRun, h]

/-- Witness for C10 at the concrete response `.failure`. -/
theorem empty_fetch_returns_immediately_witness :
    fetch_news_metadata_from_api .failure = ([] : List Stub) ∧
    runPipeline envOk .failure true =
      { driverAcquired := false, outcomes := [], driverQuitCount := 0, indexWrites := [] } :=
  ⟨rfl, empty_fetch_returns_immediately envOk .failure true rfl⟩

/-- **C5.** In every run in which the Selenium driver is successfully
acquired, `driver.quit()` runs exactly once (the `finally` block spanning
the whole per-stub loop), whatever the environment does to the individual
stubs — zero, some, or all iterations may fail. -/
theorem driver_quit_exactly_once (env : Env) (items : List Stub) (driverOk : Bool)
    (h : (mainRun env items driverOk).driverAcquired = true) :
    (mainRun env items driverOk).driverQuitCount = 1 := by
  unfold mainRun at h ⊢
  by_cases hempty : items.isEmpty
  · simp [hempty] at h
  · by_cases hd : driverOk
    · simp [hempty, hd]
    · simp [hempty, hd] at h

/-- Witness for C5: a run over three stubs in which the middle resolution
fails still acquires the driver and quits it exactly once. -/
theorem driver_quit_exactly_once_witness :
    (mainRun envFailB [stubA, stubB, stubC] true).driverAcquired = true ∧
    (mainRun envFailB [stubA, stubB, stubC] true).driverQuitCount = 1 :=
  ⟨rfl, driver_quit_exactly_once envFailB [stubA, stubB, stubC] true rfl⟩

/-- **C4.** With the driver acquired, every stub in the batch is
processed: the i-th outcome exists and is exactly `processItem` of the
i-th stub, whatever happened (resolution failure, raised validation
error) at any other index — no per-item exception escapes its own loop
iteration. -/
theorem per_stub_failure_isolated (env : Env) (items : List Stub) (i : Nat)
    (h : i < items.length) :
    (mainRun env items true).outcomes.get? i =
      some (processItem env (items.get ⟨i, h⟩)) := by
  have hne : items.isEmpty = false := by
    cases items with
    | nil => exact absurd h (by simp)
    | cons a l => rfl
  unfold mainRun
  simp [hne, List.get?_eq_get, h, List.getElem_map]

/-- Witness for C4: resolver fails on item 2 of 3, yet items 1, 2 and 3
all receive an outcome; items 1 and 3 are fully processed articles. -/
theorem per_stub_failure_isolated_witness :
    (2 < ([stubA, stubB, stubC] : List Stub).length) ∧
    (mainRun envFailB [stubA, stubB, stubC] true).outcomes.get? 0 =
      some (processItem envFailB stubA) ∧
    (mainRun envFailB [stubA, stubB, stubC] true).outcomes.get? 1 =
      some (processItem envFailB stubB) ∧
    (mainRun envFailB [stubA, stubB, stubC] true).outcomes.get? 2 =
      some (processItem envFailB stubC) ∧
    processItem envFailB stubB = .skipped :=
  ⟨by decide,
   per_stub_failure_isolated envFailB [stubA, stubB, stubC] 0 (by decide),
   per_stub_failure_isolated envFailB [stubA, stubB, stubC] 1 (by decide),
   per_stub_failure_isolated envFailB [stubA, stubB, stubC] 2 (by decide),
   rfl⟩

/-- **C1** (evaluation at the failing input).  A run over a single fully
resolvable, fully valid stub builds and prints the Article with the
extracted text — but the index receives no write at all, because the
`index_article_in_elasticsearch(article)` call in `main` is commented
out.  The claim requires the index to end with exactly one document for
the stub's link; the code leaves it empty. -/
theorem resolvable_stub_is_never_indexed :
    (mainRun envOk [stubA] true).indexWrites = [] ∧
    (mainRun envOk [stubA] true).outcomes =
      [.printed { title := "A", description := "dA", content := "Extracted text"
                  publish_date := 20240101, category := ["top"]
                  link := "https://example.com/a" }] := by
  constructor
  · rfl
  · decide

/-- **C2** (evaluation at the failing input).  `cleanup_old_articles`
assigns `seven_days_ago = datetime.now().isoformat()` without subtracting
the retention horizon, so its delete predicate is `publish_date < now`
rather than `publish_date < now - ARTICLE_RETENTION_DAYS`.  At `now =
100`, a document published at `99` — only one day old, well inside the
7-day horizon the claim (and the function's own docstring, "Delete
articles older than 7 days") promises to retain — is deleted; only the
document published exactly at `now` survives. -/
theorem cleanup_deletes_articles_inside_retention_horizon :
    (99 ≥ 100 - ARTICLE_RETENTION_DAYS ∧ 93 ≥ 100 - ARTICLE_RETENTION_DAYS) ∧
    cleanup_old_articles 100
      [("d93", { title := "d93", description := "", content := "c"
                 publish_date := 93, category := [], link := "https://e/93" }),
       ("d99", { title := "d99", description := "", content := "c"
                 publish_date := 99, category := [], link := "https://e/99" }),
       ("d100", { title := "d100", description := "", content := "c"
                  publish_date := 100, category := [], link := "https://e/100" })] =
      [("d100", { title := "d100", description := "", content := "c"
                  publish_date := 100, category := [], link := "https://e/100" })] := by
  exact ⟨⟨by decide, by decide⟩, by decide⟩

/-- **C3** (counterexample).  The document identifier is not
collision-resistant, and is not merely the link with its scheme *prefix*
stripped: two distinct links that differ only in scheme collide
(`http://a/b` and `https://a/b` both map to `a_b`), and an occurrence of
a scheme anywhere inside the link is removed as well
(`https://a/?u=http://b` maps to `a_?u=b`, not to `a_?u=http:__b`). -/
theorem doc_id_collides_on_distinct_links :
    doc_id "http://a/b" = doc_id "https://a/b" ∧
    ("http://a/b" : String) ≠ "https://a/b" ∧
    doc_id "https://a/?u=http://b" = "a_?u=b" := by
  refine ⟨by decide, by decide, by decide⟩

/-- **C3** (amended).  The document identifier is a deterministic
function of the link — the link with every occurrence of `https://` and
`http://` removed and every `/` replaced by `_` — so equal links always
yield the same identifier, and upserting two articles with the same link
into the index leaves exactly one document under that identifier whose
content is the later write.  (Distinct links, however, may collide.) -/
theorem doc_id_deterministic_upsert_idempotent (a b : Article)
    (h : a.link = b.link) :
    doc_id a.link = doc_id b.link ∧
    index_article_in_elasticsearch (index_article_in_elasticsearch [] a) b =
      [(doc_id b.link, b)] := by
  constructor
  · rw [h]
  · simp [index_article_in_elasticsearch, esIndex, h]

/-- Witness for the amended C3 at two concrete articles sharing a link
but with different contents: the second write wins and the store holds a
single document. -/
theorem doc_id_deterministic_upsert_idempotent_witness :
    ({ title := "A", description := "dA", content := "first write"
       publish_date := 20240101, category := ["top"]
       link := "https://example.com/a" } : Article).link =
      ({ title := "A2", description := "dA", content := "second write"
         publish_date := 20240102, category := ["top"]
         link := "https://example.com/a" } : Article).link ∧
    index_article_in_elasticsearch
      (index_article_in_elasticsearch []
        { title := "A", description := "dA", content := "first write"
          publish_date := 20240101, category := ["top"]
          link := "https://example.com/a" })
      { title := "A2", description := "dA", content := "second write"
        publish_date := 20240102, category := ["top"]
        link := "https://example.com/a" } =
      [("example.com_a",
        { title := "A2", description := "dA", content := "second write"
          publish_date := 20240102, category := ["top"]
          link := "https://example.com/a" })] := by
  refine ⟨rfl, ?_⟩
  have h := (doc_id_deterministic_upsert_idempotent
    { title := "A", description := "dA", content := "first write"
      publish_date := 20240101, category := ["top"]
      link := "https://example.com/a" }
    { title := "A2", description := "dA", content := "second write"
      publish_date := 20240102, category := ["top"]
      link := "https://example.com/a" } rfl).2
  rw [h]
  decide

/-- Helper: no path of `mainRun` writes to the index (the
`index_article_in_elasticsearch` call in `main` is commented out). -/
theorem mainRun_indexWrites_nil (env : Env) (items : List Stub) (driverOk : Bool) :
    (mainRun env items driverOk).indexWrites = [] := by
  unfold mainRun
  by_cases h : items.isEmpty <;> by_cases hd : driverOk <;> simp [h, hd]

/-- **C6.** Normalization (the `main`-loop path from a resolved stub to a
built Article) validates the three facts the claim lists: an article is
printed only when its link passes `HttpUrl` validation, its `pubDate`
parses, and its content is non-empty; and for a stub whose link is
syntactically invalid, no article is ever produced and the index receives
no write for that stub. -/
theorem normalization_validates_and_rejects (env : Env) (item : Stub) :
    (∀ a : Article, processItem env item = .printed a →
      isValidHttpUrl item.link = true ∧
      (env.parseDate item.pubDate).isSome = true ∧
      a.content ≠ "") ∧
    (isValidHttpUrl item.link = false →
      (∀ a : Article, processItem env item ≠ .printed a) ∧
      (∀ (items : List Stub) (driverOk : Bool),
        (mainRun env items driverOk).indexWrites = [])) := by
  have key : ∀ a : Article, processItem env item = .printed a →
      isValidHttpUrl item.link = true ∧
      (env.parseDate item.pubDate).isSome = true ∧
      a.content ≠ "" := by
    intro a ha
    simp only [processItem, itemBody] at ha
    cases hres : env.resolve item.link with
    | none => simp [hres] at ha
    | some content =>
      simp only [hres] at ha
      by_cases hc : content = ""
      · simp [hc] at ha
      · simp only [if_neg hc] at ha
        cases hpd : env.parseDate item.pubDate with
        | none => simp [hpd] at ha
        | some d =>
          simp only [hpd] at ha
          by_cases hurl : isValidHttpUrl item.link
          · simp only [hurl, if_pos, if_true, StubOutcome.printed.injEq] at ha
            refine ⟨hurl, rfl, ?_⟩
            rw [← ha]
            exact hc
          · simp [hurl] at ha
  refine ⟨key, fun hurl => ⟨fun a ha => ?_, fun items driverOk => mainRun_indexWrites_nil env items driverOk⟩⟩
  have := (key a ha).1
  rw [hurl] at this
  exact Bool.false_ne_true this

/-- Witness for C6 at a concrete stub with a schemeless link: validation
fails, no article is printed, and a run over that stub writes nothing. -/
theorem normalization_validates_and_rejects_witness :
    isValidHttpUrl stubBadLink.link = false ∧
    (∀ a : Article, processItem envOk stubBadLink ≠ .printed a) ∧
    (mainRun envOk [stubBadLink] true).indexWrites = [] :=
  ⟨by decide,
   ((normalization_validates_and_rejects envOk stubBadLink).2 (by decide)).1,
   ((normalization_validates_and_rejects envOk stubBadLink).2 (by decide)).2 [stubBadLink] true⟩

/-- **C8.** With the enrichment stage absent (the reference behavior: the
`process_news_with_langchain` call in `main` is commented out), every
article the loop produces keeps its default sentiment — `none`, the
unset value the spec's enumeration names "unknown" — and the exception
path of `process_news_with_langchain` returns the base record unchanged,
so a failing enrichment never alters it. -/
theorem enrichment_absent_preserves_base_record (env : Env) (item : Stub) :
    (∀ a : Article, processItem env item = .printed a → a.sentiment = none) ∧
    (∀ a : Article, process_news_with_langchain_failure a = a) := by
  constructor
  · intro a ha
    simp only [processItem, itemBody] at ha
    cases hres : env.resolve item.link with
    | none => simp [hres] at ha
    | some content =>
      simp only [hres] at ha
      by_cases hc : content = ""
      · simp [hc] at ha
      · simp only [if_neg hc] at ha
        cases hpd : env.parseDate item.pubDate with
        | none => simp [hpd] at ha
        | some d =>
          simp only [hpd] at ha
          by_cases hurl : isValidHttpUrl item.link
          · simp only [hurl, if_pos, if_true, StubOutcome.printed.injEq] at ha
            rw [← ha]
          · simp [hurl] at ha
  · intro a
    rfl

/-- Witness for C8 at a concrete processed stub: the article printed for
`stubA` carries sentiment `none`. -/
theorem enrichment_absent_preserves_base_record_witness :
    ({ title := "A", description := "dA", content := "Extracted text"
       publish_date := 20240101, category := ["top"]
       link := "https://example.com/a" } : Article).sentiment = none ∧
    processItem envOk stubA =
      .printed { title := "A", description := "dA", content := "Extracted text"
                 publish_date := 20240101, category := ["top"]
                 link := "https://example.com/a" } :=
  ⟨(enrichment_absent_preserves_base_record envOk stubA).1 _ (by decide), by decide⟩

/-- **C9** (counterexample).  The metadata network call is not bounded:
`requests.get` is invoked without a `timeout` argument, so no bound `B`
caps how long the call can block — a server taking `B + 1` time units
makes the call block longer than any proposed bound. -/
theorem metadata_call_unbounded :
    ¬ ∃ B : Nat, ∀ t : Nat, metadataBlockTime t ≤ B := by
  rintro ⟨B, h⟩
  have hb := h (B + 1)
  unfold metadataBlockTime at hb
  omega

/-- **C9** (amended).  The rendering waits are bounded — the
content-element wait by the 10-time-unit `WebDriverWait` timeout and the
settle delay a fixed 2 units, so content resolution blocks at most 12
units — but the metadata network call carries no timeout and can block
beyond any bound. -/
theorem waits_bounded_except_metadata :
    (∀ e : Option Nat, resolverBlockTime e ≤ webDriverWaitTimeout + settleDelay) ∧
    (∀ B : Nat, B < metadataBlockTime (B + 1)) := by
  constructor
  · intro e
    cases e with
    | none => decide
    | some t =>
      show (if t ≤ 10 then t + 2 else 10) ≤ 12
      split <;> omega
  · intro B
    unfold metadataBlockTime
    omega

end ShortSamachaar
